import Mathlib

/-!
Shallow embedding of the pyvlx KLF 200 interface (src/pyvlx/interface.py).

The embedding models the parsed JSON values the Python code manipulates,
the exception taxonomy of the module (PyVLXException, InvalidToken, and the
raw Python exceptions that no handler in the module catches), and the
stateful methods of the class as explicit state-passing functions over a
transport oracle that supplies the outcome of each HTTP exchange.
-/

set_option maxHeartbeats 1000000

/-- Parsed JSON value, as produced by the standard library loads function.
Python represents JSON null as None; floats are not used by any envelope in
this development and are treated as unparseable by the modelled parser. -/
inductive Json where
  | null
  | bool (b : Bool)
  | int (n : Int)
  | str (s : String)
  | arr (xs : List Json)
  | obj (fields : List (String × Json))

/-- Python truthiness of a parsed JSON value (bool(x) semantics). -/
def Json.truthy : Json → Bool
  | Json.null => false
  | Json.bool b => b
  | Json.int n => n != 0
  | Json.str s => s != ""
  | Json.arr xs => !xs.isEmpty
  | Json.obj fields => !fields.isEmpty

/-- Python isinstance(x, int): true for ints and for bools (bool is a
subclass of int in Python). -/
def isinstance_int : Json → Bool
  | Json.int _ => true
  | Json.bool _ => true
  | _ => false

/-- Python isinstance(x, list). -/
def isinstance_list : Json → Bool
  | Json.arr _ => true
  | _ => false

/-- Python equality between a parsed JSON value and an int literal
(True == 1, False == 0; strings and other types never equal an int). -/
def py_int_eq (j : Json) (m : Int) : Bool :=
  match j with
  | Json.int n => n == m
  | Json.bool b => (if b then (1 : Int) else 0) == m
  | _ => false

/-- Membership test first_error in [402, 403, 405, 406] from evaluate_errors. -/
def in_auth_codes (j : Json) : Bool :=
  py_int_eq j 402 || py_int_eq j 403 || py_int_eq j 405 || py_int_eq j 406

/-- Python key membership on a dict represented as an association list. -/
def dict_has (fields : List (String × Json)) (k : String) : Bool :=
  fields.any (fun p => p.1 == k)

/-- Python dict subscript on an association list; with duplicate keys the
last binding wins, as in a dict built by json.loads. Returns null when the
key is absent; every use in the embedded code is guarded by a membership
test, so the default is never observed. -/
def dict_get (fields : List (String × Json)) (k : String) : Json :=
  match fields.reverse.find? (fun p => p.1 == k) with
  | some p => p.2
  | none => Json.null

/-- Escape one character as in the output of json.dumps (default options). -/
def escape_char (c : Char) : String :=
  if c = '"' then "\\\""
  else if c = '\\' then "\\\\"
  else if c = '\n' then "\\n"
  else if c = '\t' then "\\t"
  else if c = '\r' then "\\r"
  else String.singleton c

/-- Escape a string as in the output of json.dumps (default options). -/
def escape_string (s : String) : String :=
  String.join (s.toList.map escape_char)

/-- Join with the default json.dumps item separator. -/
def join_comma : List String → String
  | [] => ""
  | [x] => x
  | x :: y :: xs => x ++ ", " ++ join_comma (y :: xs)

/-- Model of json.dumps with default options, used by the module only to
render envelopes inside exception messages. -/
def dumps : Json → String
  | Json.null => "null"
  | Json.bool true => "true"
  | Json.bool false => "false"
  | Json.int n => toString n
  | Json.str s => "\"" ++ escape_string s ++ "\""
  | Json.arr xs => "[" ++ join_comma (xs.attach.map (fun x => dumps x.1)) ++ "]"
  | Json.obj fields =>
      "\x7b" ++
        join_comma (fields.attach.map
          (fun p => "\"" ++ escape_string p.1.1 ++ "\": " ++ dumps p.1.2)) ++
      "\x7d"
decreasing_by
  all_goals simp_wf
  · have h1 := List.sizeOf_lt_of_mem x.2
    omega
  · have h1 : sizeOf p.1 < sizeOf fields := List.sizeOf_lt_of_mem p.2
    have h2 : sizeOf p.1.2 < sizeOf p.1 := by
      cases hp : p.1 with
      | mk a b => simp [hp]
    omega

/-- Python str() of the value interpolated into the unknown-error message;
only ints and bools can reach that point in evaluate_errors. -/
def py_str_int : Json → String
  | Json.int n => toString n
  | Json.bool true => "True"
  | Json.bool false => "False"
  | j => dumps j

/-- Skip JSON whitespace. -/
def skip_ws : List Char → List Char
  | [] => []
  | c :: cs => if c = ' ' || c = '\n' || c = '\t' || c = '\r' then skip_ws cs else c :: cs

/-- Scan the body of a JSON string literal after the opening quote,
handling the single-character escapes; unicode escapes are not modelled. -/
def parse_string_chars : List Char → List Char → Option (String × List Char)
  | [], _ => none
  | '"' :: rest, acc => some (String.mk acc.reverse, rest)
  | '\\' :: e :: rest, acc =>
    if e = '"' then parse_string_chars rest ('"' :: acc)
    else if e = '\\' then parse_string_chars rest ('\\' :: acc)
    else if e = '/' then parse_string_chars rest ('/' :: acc)
    else if e = 'n' then parse_string_chars rest ('\n' :: acc)
    else if e = 't' then parse_string_chars rest ('\t' :: acc)
    else if e = 'r' then parse_string_chars rest ('\r' :: acc)
    else if e = 'b' then parse_string_chars rest ('\x08' :: acc)
    else if e = 'f' then parse_string_chars rest ('\x0c' :: acc)
    else none
  | c :: rest, acc => parse_string_chars rest (c :: acc)

/-- Scan a run of decimal digits, accumulating their value. -/
def parse_digits : List Char → Nat → Bool → Option (Nat × List Char)
  | c :: rest, acc, seen =>
    if c.isDigit then parse_digits rest (acc * 10 + (c.toNat - '0'.toNat)) true
    else if seen then some (acc, c :: rest) else none
  | [], acc, seen => if seen then some (acc, []) else none

/-- Parse an integer JSON number; numbers with a fractional part or an
exponent are not used by any gateway envelope and are rejected. -/
def parse_number (neg : Bool) (cs : List Char) : Option (Json × List Char) :=
  match parse_digits cs 0 false with
  | none => none
  | some (n, rest) =>
    match rest with
    | c :: _ =>
      if c = '.' || c = 'e' || c = 'E' then none
      else some (Json.int (if neg then -(n : Int) else (n : Int)), rest)
    | [] => some (Json.int (if neg then -(n : Int) else (n : Int)), [])

mutual

/-- Recursive-descent JSON value parser; the fuel argument strictly bounds
the nesting depth and is sized from the input length at the top entry. -/
def parse_value : Nat → List Char → Option (Json × List Char)
  | 0, _ => none
  | fuel + 1, cs =>
    match skip_ws cs with
    | 'n' :: 'u' :: 'l' :: 'l' :: rest => some (Json.null, rest)
    | 't' :: 'r' :: 'u' :: 'e' :: rest => some (Json.bool true, rest)
    | 'f' :: 'a' :: 'l' :: 's' :: 'e' :: rest => some (Json.bool false, rest)
    | '"' :: rest => (parse_string_chars rest []).map (fun p => (Json.str p.1, p.2))
    | '-' :: rest => parse_number true rest
    | '[' :: rest =>
      (match skip_ws rest with
       | ']' :: rest2 => some (Json.arr [], rest2)
       | rest2 => parse_elements fuel rest2 [])
    | '\x7b' :: rest =>
      (match skip_ws rest with
       | '\x7d' :: rest2 => some (Json.obj [], rest2)
       | rest2 => parse_members fuel rest2 [])
    | c :: rest => if c.isDigit then parse_number false (c :: rest) else none
    | [] => none

/-- Parse the comma-separated elements of a non-empty JSON array. -/
def parse_elements : Nat → List Char → List Json → Option (Json × List Char)
  | 0, _, _ => none
  | fuel + 1, cs, acc =>
    match parse_value fuel cs with
    | none => none
    | some (v, rest) =>
      match skip_ws rest with
      | ',' :: rest2 => parse_elements fuel rest2 (v :: acc)
      | ']' :: rest2 => some (Json.arr (v :: acc).reverse, rest2)
      | _ => none

/-- Parse the comma-separated members of a non-empty JSON object. -/
def parse_members : Nat → List Char → List (String × Json) → Option (Json × List Char)
  | 0, _, _ => none
  | fuel + 1, cs, acc =>
    match skip_ws cs with
    | '"' :: rest =>
      (match parse_string_chars rest [] with
       | none => none
       | some (k, rest2) =>
         match skip_ws rest2 with
         | ':' :: rest3 =>
           (match parse_value fuel rest3 with
            | none => none
            | some (v, rest4) =>
              match skip_ws rest4 with
              | ',' :: rest5 => parse_members fuel rest5 ((k, v) :: acc)
              | '\x7d' :: rest5 => some (Json.obj ((k, v) :: acc).reverse, rest5)
              | _ => none)
         | _ => none)
    | _ => none

end

/-- Model of json.loads for the JSON fragment the gateway speaks: null,
booleans, integers, strings without unicode escapes, arrays and objects.
Returns none exactly where the Python call raises a JSONDecodeError. -/
def json_loads (s : String) : Option Json :=
  match parse_value (s.length + 1) s.toList with
  | some (j, rest) =>
    (match skip_ws rest with
     | [] => some j
     | _ => none)
  | none => none

/-- Exceptions that can cross the boundaries of the embedded methods.
pyvlx and invalidToken are the typed exceptions of the package; the other
constructors are raw Python exceptions no handler in the module converts:
jsonDecodeError (ValueError from json.loads), typeError (for example a str
concatenated with None), keyError and indexError (guarded subscripts), and
the three transport exception families caught by the http wrapper. -/
inductive Exc where
  | pyvlx (msg : String)
  | invalidToken (code : Json)
  | jsonDecodeError
  | typeError
  | keyError
  | indexError
  | timeoutError
  | clientError
  | osError

/-- Python membership test of a string key in a parsed JSON value:
dict key membership, list element membership, substring test for strings;
a TypeError for the remaining types. -/
def py_contains (j : Json) (k : String) : Except Exc Bool :=
  match j with
  | Json.obj fields => Except.ok (dict_has fields k)
  | Json.arr xs =>
    Except.ok (xs.any (fun x => match x with | Json.str s => s == k | _ => false))
  | Json.str s => Except.ok ((s.splitOn k).length > 1)
  | _ => Except.error Exc.typeError

/-- Python subscript with a string key: dict lookup (KeyError when absent);
a TypeError on every non-dict value. -/
def py_getitem (j : Json) (k : String) : Except Exc Json :=
  match j with
  | Json.obj fields =>
    if dict_has fields k then Except.ok (dict_get fields k) else Except.error Exc.keyError
  | _ => Except.error Exc.typeError

/-- Python subscript with index 0: list head (IndexError when empty);
a TypeError on non-sequences. -/
def py_index0 (j : Json) : Except Exc Json :=
  match j with
  | Json.arr [] => Except.error Exc.indexError
  | Json.arr (x :: _) => Except.ok x
  | _ => Except.error Exc.typeError

/-- Embeds Interface.fix_response: drop everything before the first
opening brace of the response text; an index of 0 or -1 leaves the text
unchanged. -/
def fix_response (response : String) : String :=
  let index : Int :=
    if '\x7b' ∈ response.toList then (response.toList.indexOf '\x7b' : Int) else -1
  if index > 0 then String.mk (response.toList.drop (response.toList.indexOf '\x7b'))
  else response

/-- Embeds Interface.create_api_url. -/
def create_api_url (host verb : String) : String :=
  "http://" ++ host ++ "/api/v1/" ++ verb

/-- Embeds Interface.create_headers. The Authorization value is the string
concatenation of a literal with the held token, which in Python raises a
TypeError whenever the token is not a string (in particular when it is
None). -/
def create_headers (add_authorization_token : Bool) (token : Json) :
    Except Exc (List (String × String)) :=
  let headers : List (String × String) := [("Content-Type", "application/json")]
  if add_authorization_token then
    match token with
    | Json.str s => Except.ok (headers ++ [("Authorization", "Bearer " ++ s)])
    | _ => Except.error Exc.typeError
  else
    Except.ok headers

/-- Embeds Interface.create_body: the params key is present exactly when
the params argument is not None. -/
def create_body (action : String) (params : Option Json) : Json :=
  Json.obj (("action", Json.str action) ::
    (match params with
     | none => []
     | some p => [("params", p)]))

/-- Embeds Interface.evaluate_errors, with Python short-circuit evaluation
of the guard condition made explicit. -/
def evaluate_errors (json_response : Json) : Except Exc Unit := do
  let mem ← py_contains json_response "errors"
  let bad ←
    if !mem then pure true
    else do
      let errs ← py_getitem json_response "errors"
      if !isinstance_list errs then pure true
      else if !errs.truthy then pure true
      else do
        let e0 ← py_index0 errs
        pure (!isinstance_int e0)
  if bad then
    throw (Exc.pyvlx ("Could not evaluate errors " ++ dumps json_response))
  else do
    let errs ← py_getitem json_response "errors"
    let first_error ← py_index0 errs
    if in_auth_codes first_error then
      throw (Exc.invalidToken first_error)
    else
      throw (Exc.pyvlx ("Unknown error code " ++ py_str_int first_error))

/-- Embeds Interface.evaluate_response. -/
def evaluate_response (json_response : Json) : Except Exc Unit := do
  let memErrors ← py_contains json_response "errors"
  let condErrors ←
    if memErrors then do
      let errs ← py_getitem json_response "errors"
      pure errs.truthy
    else pure false
  if condErrors then
    evaluate_errors json_response
  else do
    let memResult ← py_contains json_response "result"
    if !memResult then
      throw (Exc.pyvlx ("no element result  found in response: " ++ dumps json_response))
    else do
      let result ← py_getitem json_response "result"
      if !result.truthy then
        throw (Exc.pyvlx ("Request failed " ++ dumps json_response))
      else
        pure ()

/-- Embeds the configuration the interface reads: gateway host and login
password. -/
structure Config where
  host : String
  password : String

/-- One HTTP POST attempt as recorded by the embedding: target url, body
and headers. -/
structure Request where
  url : String
  body : Json
  headers : List (String × String)

/-- Outcome of one HTTP exchange, supplied by the transport oracle: one of
the raw transport exception families, or the raw response text. -/
inductive HttpOutcome where
  | timeout
  | clientError
  | osError
  | ok (text : String)

/-- Mutable state of one Interface instance: the held token (None at
construction, modelled as Json.null since Python has a single None), plus
the list of HTTP POST attempts issued so far, kept for counting
exchanges. -/
structure St where
  token : Json
  sent : List Request

/-- Transport oracle: the outcome of the n-th HTTP exchange issued by the
instance. -/
def Oracle := Nat → HttpOutcome

/-- Embeds Interface._do_http_request_impl: issue the POST (recording it
and consuming the next oracle outcome), then repair and parse the response
text. A failed parse is the raw JSONDecodeError of json.loads. -/
def do_http_request_impl (o : Oracle) (url : String) (body : Json)
    (headers : List (String × String)) (s : St) : Except Exc Json × St :=
  let s1 : St := { s with sent := s.sent ++ [⟨url, body, headers⟩] }
  match o s.sent.length with
  | HttpOutcome.timeout => (Except.error Exc.timeoutError, s1)
  | HttpOutcome.clientError => (Except.error Exc.clientError, s1)
  | HttpOutcome.osError => (Except.error Exc.osError, s1)
  | HttpOutcome.ok text =>
    match json_loads (fix_response text) with
    | none => (Except.error Exc.jsonDecodeError, s1)
    | some j => (Except.ok j, s1)

/-- Embeds Interface._do_http_request: convert the three caught transport
exception families into the typed PyVLXException; everything else (the
parsed envelope, or a raw parse error) passes through untouched. -/
def do_http_request (o : Oracle) (url : String) (body : Json)
    (headers : List (String × String)) (s : St) : Except Exc Json × St :=
  match do_http_request_impl o url body headers s with
  | (Except.error Exc.timeoutError, s1) =>
    (Except.error (Exc.pyvlx "Request timeout when talking to VELUX API"), s1)
  | (Except.error Exc.clientError, s1) =>
    (Except.error (Exc.pyvlx "HTTP error when talking to VELUX API"), s1)
  | (Except.error Exc.osError, s1) =>
    (Except.error (Exc.pyvlx "OS error when talking to VELUX API"), s1)
  | r => r

/-- Embeds Interface._api_call_impl: build url, body and headers (the
header step can raise a raw TypeError when the held token is not a
string), then perform the request. -/
def api_call_impl (cfg : Config) (o : Oracle) (verb action : String)
    (params : Option Json) (add_authorization_token : Bool) (s : St) :
    Except Exc Json × St :=
  let url := create_api_url cfg.host verb
  let body := create_body action params
  match create_headers add_authorization_token s.token with
  | Except.error e => (Except.error e, s)
  | Except.ok headers => do_http_request o url body headers s

mutual

/-- Embeds Interface.api_call: refresh the token first when authorization
is required and no truthy token is held; then run the call, and on an
InvalidToken exception refresh and re-issue the call once (marked as a
retry) when this was the first authorized attempt, otherwise re-raise. -/
def api_call (cfg : Config) (o : Oracle) (verb action : String)
    (params : Option Json) (add_authorization_token : Bool) (retry : Bool)
    (s : St) : Except Exc Json × St :=
  let pre :=
    match h : add_authorization_token && !s.token.truthy with
    | true => refresh_token cfg o s
    | false => (Except.ok (), s)
  match pre with
  | (Except.error e, s1) => (Except.error e, s1)
  | (Except.ok _, s1) =>
    match api_call_impl cfg o verb action params add_authorization_token s1 with
    | (Except.error (Exc.invalidToken code), s2) =>
      if h2 : !retry && add_authorization_token then
        match refresh_token cfg o s2 with
        | (Except.error e, s3) => (Except.error e, s3)
        | (Except.ok _, s3) =>
          api_call cfg o verb action params add_authorization_token true s3
      else
        (Except.error (Exc.invalidToken code), s2)
    | r => r
termination_by (if add_authorization_token then (if retry then 3 else 5) else 1 : Nat)
decreasing_by
  · cases add_authorization_token with
    | false => simp at h
    | true => cases retry <;> simp
  · simp at h2
    simp [h2.1, h2.2]
  · simp at h2
    simp [h2.1, h2.2]

/-- Embeds Interface.refresh_token: call the login endpoint without
authorization, require a token field in the parsed response, and install
its value (whatever it is) as the held token. -/
def refresh_token (cfg : Config) (o : Oracle) (s : St) : Except Exc Unit × St :=
  match api_call cfg o "auth" "login"
      (some (Json.obj [("password", Json.str cfg.password)])) false false s with
  | (Except.error e, s1) => (Except.error e, s1)
  | (Except.ok json_response, s1) =>
    match py_contains json_response "token" with
    | Except.error e => (Except.error e, s1)
    | Except.ok mem =>
      if !mem then
        (Except.error (Exc.pyvlx
          ("no element token found in response: " ++ dumps json_response)), s1)
      else
        match py_getitem json_response "token" with
        | Except.error e => (Except.error e, s1)
        | Except.ok tok => (Except.ok (), { s1 with token := tok })
termination_by (2 : Nat)
decreasing_by
  simp

end

/-- Embeds Interface.disconnect: issue the logout call (empty params dict,
authorization required) and, when it returns, clear the held token. An
exception from the call propagates before the token is cleared. -/
def disconnect (cfg : Config) (o : Oracle) (s : St) : Except Exc Unit × St :=
  match api_call cfg o "auth" "logout" (some (Json.obj [])) true false s with
  | (Except.error e, s1) => (Except.error e, s1)
  | (Except.ok _, s1) => (Except.ok (), { s1 with token := Json.null })

/-- Concrete gateway configuration used by the concrete runs below. -/
def cfg0 : Config := ⟨"host", "pw"⟩

/-- Instance state holding the token "tok" with no exchange issued yet. -/
def st0 : St := ⟨Json.str "tok", []⟩

/-- Freshly constructed instance state: no token, no exchange issued. -/
def st_null : St := ⟨Json.null, []⟩

/-- Response text carrying the invalid-token error code 403. -/
def text_errors_403 : String := "\x7b\"errors\": [403]\x7d"

/-- Response text carrying a successful result. -/
def text_result_true : String := "\x7b\"result\": true\x7d"

/-- Login response whose token field is JSON null. -/
def text_token_null : String := "\x7b\"token\": null\x7d"

/-- Login response carrying the token "abc". -/
def text_token_abc : String := "\x7b\"token\": \"abc\"\x7d"

/-- Transport scenario: the first exchange answers with error 403, every
later exchange with a successful result. -/
def oracle_errors_then_ok : Oracle := fun n =>
  match n with
  | 0 => HttpOutcome.ok text_errors_403
  | _ => HttpOutcome.ok text_result_true

/-- Transport scenario: every exchange answers with error 403. -/
def oracle_errors_always : Oracle := fun _ => HttpOutcome.ok text_errors_403

/-- Transport scenario: every exchange fails with an OS-level error. -/
def oracle_os_error : Oracle := fun _ => HttpOutcome.osError

/-- Transport scenario: every exchange answers with unparseable text. -/
def oracle_not_json : Oracle := fun _ => HttpOutcome.ok ("not json")

/-- Transport scenario: every exchange answers with a null token field. -/
def oracle_token_null : Oracle := fun _ => HttpOutcome.ok text_token_null

/-- Transport scenario: every exchange answers with the token "abc". -/
def oracle_token_abc : Oracle := fun _ => HttpOutcome.ok text_token_abc

/-- Transport scenario: every exchange answers with result true. -/
def oracle_result_true : Oracle := fun _ => HttpOutcome.ok text_result_true

/-- The http layer of the module never raises InvalidToken: its typed
failures are PyVLXException messages and its raw failures are the header
TypeError or the parse error, so the retry handler in api_call can never
fire. -/
theorem api_call_impl_no_invalid_token (cfg : Config) (o : Oracle) (verb action : String)
    (params : Option Json) (add_authorization_token : Bool) (s : St) (c : Json) :
    (api_call_impl cfg o verb action params add_authorization_token s).1 ≠
      Except.error (Exc.invalidToken c) := by
  unfold api_call_impl do_http_request do_http_request_impl
  cases hh : create_headers add_authorization_token s.token with
  | error e =>
    simp only [hh]
    unfold create_headers at hh
    cases add_authorization_token <;> simp at hh
    · cases htok : s.token <;> simp [htok] at hh <;> simp [← hh]
  | ok headers =>
    simp only [hh]
    cases ho : o s.sent.length <;> simp
    case ok text =>
      cases hp : json_loads (fix_response text) <;> simp

theorem api_call_eq (cfg : Config) (o : Oracle) (verb action : String)
    (params : Option Json) (add_authorization_token retry : Bool) (s : St) :
    api_call cfg o verb action params add_authorization_token retry s =
      match (if add_authorization_token && !s.token.truthy then refresh_token cfg o s
             else (Except.ok (), s)) with
      | (Except.error e, s1) => (Except.error e, s1)
      | (Except.ok _, s1) => api_call_impl cfg o verb action params add_authorization_token s1 := by
  rw [api_call]
  cases hc : (add_authorization_token && !s.token.truthy) with
  | false =>
    simp only [hc, if_false, Bool.false_eq_true, if_neg]
    cases himpl : api_call_impl cfg o verb action params add_authorization_token s with
    | mk r2 s2 =>
      cases r2 with
      | ok j => rfl
      | error e =>
        cases e <;> try rfl
        case invalidToken c => exact absurd (by rw [himpl]) (api_call_impl_no_invalid_token cfg o verb action params add_authorization_token s c)
  | true =>
    simp only [hc, if_true]
    cases hpre : refresh_token cfg o s with
    | mk r1 s1 =>
      cases r1 with
      | error e => rfl
      | ok u =>
        dsimp only
        cases himpl : api_call_impl cfg o verb action params add_authorization_token s1 with
        | mk r2 s2 =>
          cases r2 with
          | ok j => rfl
          | error e =>
            cases e <;> try rfl
            case invalidToken c => exact absurd (by rw [himpl]) (api_call_impl_no_invalid_token cfg o verb action params add_authorization_token s1 c)

/-- Closed form of api_call: since the http layer never raises
InvalidToken, the retry branch of the exception handler is unreachable and
one call is the optional token refresh followed by one request. -/
theorem refresh_token_eq (cfg : Config) (o : Oracle) (s : St) :
    refresh_token cfg o s =
      match api_call_impl cfg o "auth" "login"
          (some (Json.obj [("password", Json.str cfg.password)])) false s with
      | (Except.error e, s1) => (Except.error e, s1)
      | (Except.ok json_response, s1) =>
        match py_contains json_response "token" with
        | Except.error e => (Except.error e, s1)
        | Except.ok mem =>
          if !mem then
            (Except.error (Exc.pyvlx
              ("no element token found in response: " ++ dumps json_response)), s1)
          else
            match py_getitem json_response "token" with
            | Except.error e => (Except.error e, s1)
            | Except.ok tok => (Except.ok (), { s1 with token := tok }) := by
  rw [refresh_token, api_call_eq]
  simp only [Bool.false_and, Bool.false_eq_true, if_false]

/-- Result of one request attempt when the held token is the string tk:
the typed transport failures, the raw parse failure, or the parsed
envelope, with exactly one request appended to the log. -/
theorem api_call_impl_str_token_result (cfg : Config) (o : Oracle) (verb action : String)
    (params : Option Json) (tk : String) (s : St) (h : s.token = Json.str tk) :
    api_call_impl cfg o verb action params true s =
      (match o s.sent.length with
       | HttpOutcome.timeout => Except.error (Exc.pyvlx "Request timeout when talking to VELUX API")
       | HttpOutcome.clientError => Except.error (Exc.pyvlx "HTTP error when talking to VELUX API")
       | HttpOutcome.osError => Except.error (Exc.pyvlx "OS error when talking to VELUX API")
       | HttpOutcome.ok text =>
         match json_loads (fix_response text) with
         | none => Except.error Exc.jsonDecodeError
         | some j => Except.ok j,
       { s with sent := s.sent ++
          [⟨create_api_url cfg.host verb, create_body action params,
            [("Content-Type", "application/json"), ("Authorization", "Bearer " ++ tk)]⟩] }) := by
  simp only [api_call_impl, do_http_request, do_http_request_impl, create_headers, h, if_true]
  cases ho : o s.sent.length <;> simp [ho]
  case ok text => cases hp : json_loads (fix_response text) <;> simp [hp]

/-- An authorized call with a truthy string token held skips the initial
refresh and is exactly one request attempt. -/
theorem api_call_truthy_str_token (cfg : Config) (o : Oracle) (verb action : String)
    (params : Option Json) (retry : Bool) (tk : String) (s : St)
    (h : s.token = Json.str tk) (hne : tk ≠ "") :
    api_call cfg o verb action params true retry s =
      api_call_impl cfg o verb action params true s := by
  have htr : s.token.truthy = true := by simp [h, Json.truthy, hne]
  rw [api_call_eq]
  simp [htr]

/-- Behaviour of refresh_token when the login exchange parses to an
object: a missing token field raises PyVLXException and leaves the token
unchanged, a present token field is installed verbatim. -/
theorem refresh_token_installs_field (cfg : Config) (o : Oracle) (s : St) (t : String)
    (fields : List (String × Json))
    (ho : o s.sent.length = HttpOutcome.ok t)
    (hp : json_loads (fix_response t) = some (Json.obj fields)) :
    (dict_has fields "token" = false →
       (refresh_token cfg o s).1 = Except.error (Exc.pyvlx
         ("no element token found in response: " ++ dumps (Json.obj fields))) ∧
       (refresh_token cfg o s).2.token = s.token) ∧
    (dict_has fields "token" = true →
       (refresh_token cfg o s).1 = Except.ok () ∧
       (refresh_token cfg o s).2.token = dict_get fields "token") := by
  rw [refresh_token_eq]
  simp only [api_call_impl, do_http_request, do_http_request_impl, create_headers, if_false, ho, hp]
  constructor
  · intro hmem
    simp [py_contains, py_getitem, hmem]
  · intro hmem
    simp [py_contains, py_getitem, hmem]

/-- One request attempt with a string token never raises the header
TypeError: its failures are the typed transport messages or the raw parse
error. -/
theorem api_call_impl_no_type_error_of_str (cfg : Config) (o : Oracle) (verb action : String)
    (params : Option Json) (tk : String) (s : St) (h : s.token = Json.str tk) :
    (api_call_impl cfg o verb action params true s).1 ≠ Except.error Exc.typeError := by
  rw [api_call_impl_str_token_result cfg o verb action params tk s h]
  cases ho : o s.sent.length <;> simp
  case ok text => cases hp : json_loads (fix_response text) <;> simp

/-- C1: with a held token, a call whose first exchange answers with the
envelope errors [403] (and whose next exchange would answer result true)
performs exactly one HTTP exchange to the target endpoint, performs no
login exchange, triggers no token refresh and no retry, and returns the
errors envelope unevaluated as a normal result. The response is never
evaluated inside api_call, so the InvalidToken retry contract of the
specification never engages. -/
theorem api_call_errors403_single_exchange :
    api_call cfg0 oracle_errors_then_ok "device" "get" none true false st0 =
      (Except.ok (Json.obj [("errors", Json.arr [Json.int 403])]),
       ⟨Json.str "tok",
        [⟨"http://host/api/v1/device", Json.obj [("action", Json.str "get")],
          [("Content-Type", "application/json"), ("Authorization", "Bearer tok")]⟩]⟩) := by
  rw [api_call_eq]; rfl

/-- C2: with a held token and every exchange answering errors [403], the
call terminates after exactly one HTTP exchange to the target endpoint
(within the claimed bound of two) and returns the first errors envelope as
a normal result; no InvalidToken failure is ever propagated to the caller,
because responses are never evaluated inside api_call. -/
theorem api_call_persistent_403_no_retry_bounded :
    api_call cfg0 oracle_errors_always "device" "get" none true false st0 =
      (Except.ok (Json.obj [("errors", Json.arr [Json.int 403])]),
       ⟨Json.str "tok",
        [⟨"http://host/api/v1/device", Json.obj [("action", Json.str "get")],
          [("Content-Type", "application/json"), ("Authorization", "Bearer tok")]⟩]⟩) := by
  rw [api_call_eq]; rfl

/-- C3 counterexample: when the logout exchange fails with a transport
error, disconnect propagates the typed transport failure and the held
token "tok" is NOT cleared, contradicting the claim that the token is
cleared regardless of the logout call's success. -/
theorem disconnect_transport_error_keeps_token :
    disconnect cfg0 oracle_os_error st0 =
      (Except.error (Exc.pyvlx "OS error when talking to VELUX API"),
       ⟨Json.str "tok",
        [⟨"http://host/api/v1/auth",
          Json.obj [("action", Json.str "logout"), ("params", Json.obj [])],
          [("Content-Type", "application/json"), ("Authorization", "Bearer tok")]⟩]⟩) := by
  unfold disconnect
  rw [api_call_eq]; rfl

/-- C3 amended: with a held non-empty string token, disconnect clears the
token only when the logout exchange returns a parseable response; when the
logout exchange fails with a transport error the exception propagates and
the token is left unchanged. -/
theorem disconnect_token_clear (cfg : Config) (o : Oracle) (s : St) (tk t : String) (j : Json)
    (htok : s.token = Json.str tk) (hne : tk ≠ "") :
    (o s.sent.length = HttpOutcome.osError →
       (disconnect cfg o s).1 = Except.error (Exc.pyvlx "OS error when talking to VELUX API") ∧
       (disconnect cfg o s).2.token = Json.str tk) ∧
    (o s.sent.length = HttpOutcome.ok t → json_loads (fix_response t) = some j →
       (disconnect cfg o s).1 = Except.ok () ∧
       (disconnect cfg o s).2.token = Json.null) := by
  unfold disconnect
  rw [api_call_truthy_str_token cfg o "auth" "logout" (some (Json.obj [])) false tk s htok hne,
    api_call_impl_str_token_result cfg o "auth" "logout" (some (Json.obj [])) tk s htok]
  constructor
  · intro ho
    simp [ho, htok]
  · intro ho hp
    simp [ho, hp]

/-- C3 witness: a transport-failed logout leaves the token "tok" in place,
and a successful logout clears it to null. -/
theorem disconnect_token_clear_witness :
    (disconnect cfg0 oracle_os_error st0).2.token = Json.str "tok" ∧
    (disconnect cfg0 oracle_result_true st0).2.token = Json.null :=
  ⟨((disconnect_token_clear cfg0 oracle_os_error st0 "tok" text_result_true
      (Json.obj [("result", Json.bool true)]) rfl (by decide)).1 rfl).2,
   (((disconnect_token_clear cfg0 oracle_result_true st0 "tok" text_result_true
      (Json.obj [("result", Json.bool true)]) rfl (by decide)).2 rfl) rfl).2⟩

/-- C4 counterexample: a response whose repaired text is not valid JSON
makes api_call fail with the raw JSONDecodeError of the parsing step, not
with the typed PyVLXException protocol failure: the except clauses of the
http wrapper catch only the transport exception families, so the caller
receives the untyped parse exception. -/
theorem api_call_invalid_json_raw_error :
    api_call cfg0 oracle_not_json "device" "get" none true false st0 =
      (Except.error Exc.jsonDecodeError,
       ⟨Json.str "tok",
        [⟨"http://host/api/v1/device", Json.obj [("action", Json.str "get")],
          [("Content-Type", "application/json"), ("Authorization", "Bearer tok")]⟩]⟩) := by
  rw [api_call_eq]; rfl

/-- C4 amended: with a held non-empty string token, every response text
whose repaired form is not valid JSON makes api_call fail with the raw
(untyped) JSON decode error, while the three transport failure families
are each converted to the typed transport PyVLXException. -/
theorem api_call_parse_failure_untyped (cfg : Config) (o : Oracle) (s : St)
    (verb action : String) (params : Option Json) (retry : Bool) (tk t : String)
    (htok : s.token = Json.str tk) (hne : tk ≠ "") :
    (o s.sent.length = HttpOutcome.ok t → json_loads (fix_response t) = none →
       (api_call cfg o verb action params true retry s).1 = Except.error Exc.jsonDecodeError) ∧
    (o s.sent.length = HttpOutcome.timeout →
       (api_call cfg o verb action params true retry s).1 =
         Except.error (Exc.pyvlx "Request timeout when talking to VELUX API")) ∧
    (o s.sent.length = HttpOutcome.clientError →
       (api_call cfg o verb action params true retry s).1 =
         Except.error (Exc.pyvlx "HTTP error when talking to VELUX API")) ∧
    (o s.sent.length = HttpOutcome.osError →
       (api_call cfg o verb action params true retry s).1 =
         Except.error (Exc.pyvlx "OS error when talking to VELUX API")) := by
  rw [api_call_truthy_str_token cfg o verb action params retry tk s htok hne,
    api_call_impl_str_token_result cfg o verb action params tk s htok]
  refine ⟨fun ho hp => ?_, fun ho => ?_, fun ho => ?_, fun ho => ?_⟩ <;> simp [ho]
  simp [hp]

/-- C4 witness: the unparseable response "not json" surfaces as the raw
parse error, and an OS-level transport failure as the typed message. -/
theorem api_call_parse_failure_untyped_witness :
    (api_call cfg0 oracle_not_json "device" "get" none true false st0).1 =
      Except.error Exc.jsonDecodeError ∧
    (api_call cfg0 oracle_os_error "device" "get" none true false st0).1 =
      Except.error (Exc.pyvlx "OS error when talking to VELUX API") :=
  ⟨(api_call_parse_failure_untyped cfg0 oracle_not_json st0 "device" "get" none false
      "tok" ("not json") rfl (by decide)).1 rfl rfl,
   (api_call_parse_failure_untyped cfg0 oracle_os_error st0 "device" "get" none false
      "tok" ("not json") rfl (by decide)).2.2.2 rfl⟩

/-- C5 counterexample: an envelope whose errors list is not a list of
integers because its SECOND element is a string is classified by
evaluate_errors as InvalidToken 403 from the first element, not as the
protocol-violation failure the claim requires for every such envelope. -/
theorem evaluate_errors_mixed_list_invalid_token :
    evaluate_errors (Json.obj [("errors", Json.arr [Json.int 403, Json.str "x"])]) =
      Except.error (Exc.invalidToken (Json.int 403)) := by rfl

/-- C5 amended: evaluate_errors raises the protocol-violation failure
exactly when the errors field is missing, not a list, an empty list, or a
list whose FIRST element is not an integer; elements after the first are
never inspected. -/
theorem evaluate_errors_bad_shape_protocol_error (fields : List (String × Json)) :
    (dict_has fields "errors" = false ∨
      (isinstance_list (dict_get fields "errors") = false ∨
       dict_get fields "errors" = Json.arr [] ∨
       (∃ x rest, dict_get fields "errors" = Json.arr (x :: rest) ∧ isinstance_int x = false))) →
    evaluate_errors (Json.obj fields) =
      Except.error (Exc.pyvlx ("Could not evaluate errors " ++ dumps (Json.obj fields))) := by
  intro h
  simp only [evaluate_errors, py_contains, py_getitem, py_index0, bind, Except.bind, pure,
    Except.pure, throw, throwThe, MonadExceptOf.throw]
  cases hmem : dict_has fields "errors" with
  | false => simp
  | true =>
    simp only [Bool.not_true, if_true, if_false]
    rcases h with h | h | h | h
    · exact absurd hmem (by simp [h])
    · cases hget : dict_get fields "errors" <;> simp [hget] at h ⊢ <;> simp [isinstance_list] at h ⊢
    · simp [h, Json.truthy, isinstance_list]
    · obtain ⟨x, rest, hget, hx⟩ := h
      simp [hget, isinstance_list, Json.truthy, hx]

/-- C5 witness: an errors field that is a plain string is rejected with
the protocol-violation message. -/
theorem evaluate_errors_bad_shape_witness :
    evaluate_errors (Json.obj [("errors", Json.str "x")]) =
      Except.error (Exc.pyvlx ("Could not evaluate errors " ++
        dumps (Json.obj [("errors", Json.str "x")]))) :=
  evaluate_errors_bad_shape_protocol_error [("errors", Json.str "x")]
    (Or.inr (Or.inl (by rfl)))

/-- C6: for an envelope whose errors field is a non-empty integer list,
evaluate_errors inspects only the first code: a first code in the set
402, 403, 405, 406 raises InvalidToken carrying it, any other first code
raises the unknown-error-code failure carrying it, whatever the later
elements are. -/
theorem evaluate_errors_first_code_classification (fields : List (String × Json))
    (c : Int) (rest : List Int) :
    dict_has fields "errors" = true →
    dict_get fields "errors" = Json.arr (Json.int c :: rest.map Json.int) →
    ((c = 402 ∨ c = 403 ∨ c = 405 ∨ c = 406) →
       evaluate_errors (Json.obj fields) = Except.error (Exc.invalidToken (Json.int c))) ∧
    (¬(c = 402 ∨ c = 403 ∨ c = 405 ∨ c = 406) →
       evaluate_errors (Json.obj fields) =
         Except.error (Exc.pyvlx ("Unknown error code " ++ toString c))) := by
  intro hmem hget
  have hcodes : in_auth_codes (Json.int c) = (c == 402 || c == 403 || c == 405 || c == 406) := by
    simp [in_auth_codes, py_int_eq]
  constructor <;> intro hc <;>
    simp only [evaluate_errors, py_contains, py_getitem, py_index0, bind, Except.bind, pure,
      Except.pure, throw, throwThe, MonadExceptOf.throw, hmem, hget, if_true, Bool.not_true,
      isinstance_list, isinstance_int, Json.truthy, py_str_int] <;>
    simp [hcodes] <;> omega

/-- C6 witness: errors [403, 999] yields InvalidToken 403 even though a
later element is not an authentication code, and errors [999] yields the
unknown-error-code failure for 999. -/
theorem evaluate_errors_first_code_witness :
    evaluate_errors (Json.obj [("errors", Json.arr [Json.int 403, Json.int 999])]) =
      Except.error (Exc.invalidToken (Json.int 403)) ∧
    evaluate_errors (Json.obj [("errors", Json.arr [Json.int 999])]) =
      Except.error (Exc.pyvlx ("Unknown error code " ++ toString (999 : Int))) :=
  ⟨(evaluate_errors_first_code_classification [("errors", Json.arr [Json.int 403, Json.int 999])]
      403 [999] rfl rfl).1 (by decide),
   (evaluate_errors_first_code_classification [("errors", Json.arr [Json.int 999])]
      999 [] rfl rfl).2 (by decide)⟩

/-- C7: evaluate_response succeeds on result true with no errors field,
raises the no-result protocol violation when both result and errors are
absent, and raises the generic request-failed error carrying the dumped
envelope when result is present but falsy while errors is absent or an
empty list. -/
theorem evaluate_response_classification (fields : List (String × Json)) :
    (dict_has fields "errors" = false → dict_has fields "result" = true →
       dict_get fields "result" = Json.bool true →
       evaluate_response (Json.obj fields) = Except.ok ()) ∧
    (dict_has fields "errors" = false → dict_has fields "result" = false →
       evaluate_response (Json.obj fields) =
         Except.error (Exc.pyvlx ("no element result  found in response: " ++
           dumps (Json.obj fields)))) ∧
    ((dict_has fields "errors" = false ∨ dict_get fields "errors" = Json.arr []) →
       dict_has fields "result" = true → (dict_get fields "result").truthy = false →
       evaluate_response (Json.obj fields) =
         Except.error (Exc.pyvlx ("Request failed " ++ dumps (Json.obj fields)))) := by
  refine ⟨fun he hr hv => ?_, fun he hr => ?_, fun he hr hv => ?_⟩
  · simp [evaluate_response, py_contains, py_getitem, bind, Except.bind, pure, Except.pure,
      he, hr, hv, Json.truthy]
  · simp [evaluate_response, py_contains, py_getitem, bind, Except.bind, pure, Except.pure,
      throw, throwThe, MonadExceptOf.throw, he, hr]
  · have harr : Json.truthy (Json.arr []) = false := rfl
    rcases he with he | he
    · simp [evaluate_response, py_contains, py_getitem, bind, Except.bind, pure, Except.pure,
        throw, throwThe, MonadExceptOf.throw, he, hr, hv]
    · by_cases hm : dict_has fields "errors" = true
      · simp [evaluate_response, py_contains, py_getitem, bind, Except.bind, pure, Except.pure,
          throw, throwThe, MonadExceptOf.throw, hm, he, hr, hv, harr]
      · simp only [Bool.not_eq_true] at hm
        simp [evaluate_response, py_contains, py_getitem, bind, Except.bind, pure, Except.pure,
          throw, throwThe, MonadExceptOf.throw, hm, hr, hv]

/-- C7 witness: the three classifications at concrete envelopes. -/
theorem evaluate_response_classification_witness :
    evaluate_response (Json.obj [("result", Json.bool true)]) = Except.ok () ∧
    evaluate_response (Json.obj []) =
      Except.error (Exc.pyvlx ("no element result  found in response: " ++
        dumps (Json.obj []))) ∧
    evaluate_response (Json.obj [("result", Json.bool false), ("errors", Json.arr [])]) =
      Except.error (Exc.pyvlx ("Request failed " ++
        dumps (Json.obj [("result", Json.bool false), ("errors", Json.arr [])]))) :=
  ⟨(evaluate_response_classification [("result", Json.bool true)]).1 rfl rfl rfl,
   (evaluate_response_classification []).2.1 rfl rfl,
   (evaluate_response_classification [("result", Json.bool false), ("errors", Json.arr [])]).2.2
     (Or.inr rfl) rfl rfl⟩

/-- C8: when the login exchange parses to an envelope, refresh_token on an
envelope without a token field fails with the protocol-violation
PyVLXException and leaves the held token unchanged, and on an envelope
with a token field installs its value as the new held token. -/
theorem refresh_token_token_field (cfg : Config) (o : Oracle) (s : St) (t : String)
    (fields : List (String × Json))
    (ho : o s.sent.length = HttpOutcome.ok t)
    (hp : json_loads (fix_response t) = some (Json.obj fields)) :
    (dict_has fields "token" = false →
       (refresh_token cfg o s).1 = Except.error (Exc.pyvlx
         ("no element token found in response: " ++ dumps (Json.obj fields))) ∧
       (refresh_token cfg o s).2.token = s.token) ∧
    (dict_has fields "token" = true →
       (refresh_token cfg o s).1 = Except.ok () ∧
       (refresh_token cfg o s).2.token = dict_get fields "token") :=
  refresh_token_installs_field cfg o s t fields ho hp

/-- C8 witness: a login response without a token field leaves the held
token "tok" unchanged, and one with token "abc" installs it. -/
theorem refresh_token_token_field_witness :
    (refresh_token cfg0 oracle_result_true st0).2.token = Json.str "tok" ∧
    (refresh_token cfg0 oracle_token_abc st0).2.token = Json.str "abc" :=
  ⟨((refresh_token_token_field cfg0 oracle_result_true st0 text_result_true
      [("result", Json.bool true)] rfl rfl).1 rfl).2,
   ((refresh_token_token_field cfg0 oracle_token_abc st0 text_token_abc
      [("token", Json.str "abc")] rfl rfl).2 rfl).2⟩

/-- C9: fix_response leaves its input unchanged when it contains no
opening brace or begins with one, and otherwise drops everything before
the first opening brace; the three concrete examples of the claim
evaluate as stated. -/
theorem fix_response_spec :
    (∀ s : String,
      ('\x7b' ∉ s.toList → fix_response s = s) ∧
      (s.toList.indexOf '\x7b' = 0 → fix_response s = s) ∧
      (0 < s.toList.indexOf '\x7b' → '\x7b' ∈ s.toList →
        fix_response s = String.mk (s.toList.drop (s.toList.indexOf '\x7b')))) ∧
    fix_response (")]\x7d\x27,\x7b\"result\":true\x7d") = "\x7b\"result\":true\x7d" ∧
    fix_response ("\x7b\"result\":true\x7d") = "\x7b\"result\":true\x7d" ∧
    fix_response ("not json") = "not json" := by
  refine ⟨fun s => ⟨fun h => ?_, fun h => ?_, fun h hm => ?_⟩, by rfl, by rfl, by rfl⟩
  · simp only [fix_response]
    rw [if_neg h, if_neg (by norm_num)]
  · simp only [fix_response]
    by_cases hm : '\x7b' ∈ s.toList
    · rw [if_pos hm, h, if_neg (by norm_num)]
    · rw [if_neg hm, if_neg (by norm_num)]
  · simp only [fix_response]
    rw [if_pos hm, if_pos (by exact_mod_cast h)]

/-- C9 witness: the universal clauses applied at concrete inputs with
their hypotheses discharged by computation. -/
theorem fix_response_spec_witness :
    fix_response ("no brace here") = "no brace here" ∧
    fix_response ("ab\x7bcd") = "\x7bcd" :=
  ⟨(fix_response_spec.1 ("no brace here")).1 (by decide),
   (fix_response_spec.1 ("ab\x7bcd")).2.2 (by decide) (by decide)⟩

/-- C10 counterexample: starting with no token, a login exchange whose
envelope maps token to null installs null as the held token, after which
api_call still reaches header construction and the Bearer concatenation
fails with the raw TypeError: header construction does operate on an
absent (None) token. -/
theorem api_call_null_token_type_error :
    api_call cfg0 oracle_token_null "device" "get" none true false st_null =
      (Except.error Exc.typeError,
       ⟨Json.null,
        [⟨"http://host/api/v1/auth",
          Json.obj [("action", Json.str "login"), ("params", Json.obj [("password", Json.str "pw")])],
          [("Content-Type", "application/json")]⟩]⟩) := by
  rw [api_call_eq, refresh_token_eq]; rfl

/-- C10 amended: the Bearer concatenation is safe provided the token that
reaches header construction is a string: an authorized call with a held
non-empty string token, or one whose login exchange installs a string
token, never fails with the header TypeError. -/
theorem create_headers_string_token_safe (cfg : Config) (o : Oracle) (verb action : String)
    (params : Option Json) (retry : Bool) (tk tk2 t : String) (s : St)
    (fields : List (String × Json)) :
    (s.token = Json.str tk → tk ≠ "" →
       (api_call cfg o verb action params true retry s).1 ≠ Except.error Exc.typeError) ∧
    (s.token.truthy = false → o s.sent.length = HttpOutcome.ok t →
       json_loads (fix_response t) = some (Json.obj fields) →
       dict_has fields "token" = true → dict_get fields "token" = Json.str tk2 →
       (api_call cfg o verb action params true false s).1 ≠ Except.error Exc.typeError) := by
  constructor
  · intro htok hne
    rw [api_call_truthy_str_token cfg o verb action params retry tk s htok hne]
    exact api_call_impl_no_type_error_of_str cfg o verb action params tk s htok
  · intro hfalsy ho hp hmem hstr
    rw [api_call_eq]
    simp only [hfalsy, Bool.not_false, Bool.and_true, if_true]
    cases href : refresh_token cfg o s with
    | mk r1 s2 =>
      have hfield := (refresh_token_installs_field cfg o s t fields ho hp).2 hmem
      rw [href] at hfield
      simp only at hfield
      obtain ⟨h1, h2⟩ := hfield
      subst h1
      dsimp only
      rw [hstr] at h2
      exact api_call_impl_no_type_error_of_str cfg o verb action params tk2 s2 h2

/-- C10 witness: with the held string token "tok", and likewise after a
login that installs the string token "abc", the call never fails with the
header TypeError. -/
theorem create_headers_string_token_witness :
    (api_call cfg0 oracle_result_true "device" "get" none true false st0).1 ≠
      Except.error Exc.typeError ∧
    (api_call cfg0 oracle_token_abc "device" "get" none true false st_null).1 ≠
      Except.error Exc.typeError :=
  ⟨(create_headers_string_token_safe cfg0 oracle_result_true "device" "get" none false
      "tok" "abc" text_token_abc st0 [("token", Json.str "abc")]).1 rfl (by decide),
   (create_headers_string_token_safe cfg0 oracle_token_abc "device" "get" none false
      "tok" "abc" text_token_abc st_null [("token", Json.str "abc")]).2 rfl rfl rfl rfl rfl⟩
